import Mathlib

/-!
Shallow embedding of the voice-assistant session controller of
`src/layout/chatbot-voice.js` (module `ChatbotVoice`) and of the text-turn
stream consumer `sendTextMessage` of the chatbot core, together with proofs
about the speech/silence detector, the voice state machine, the stream
accumulators and the teardown paths.

Conventions of the embedding:
* Times and durations are integers (milliseconds); normalized loudness
  values, which live in [0,1] and are only ever compared against the two
  constant thresholds 0.45 and 0.06, are recorded in hundredths of that
  scale (so a sample of 0.5 is the integer 50 and `n > 0.45` is `n > 45`).
  `ℤ` everywhere keeps every operation kernel-computable.
* JavaScript module-level variables become fields of `ModuleState`.
* Each callback/handler runs as one atomic step, matching the
  single-threaded cooperative scheduling of the host page.  The awaited
  `getUserMedia` of `startVoiceRecording` is modelled as resolving
  immediately with permission granted (it precedes every state mutation of
  that function).  The fire-and-forget `getUserMedia` of
  `startBargeInDetector` is NOT collapsed: its `.then` continuation races
  with state transitions, so the model keeps a pending-request counter and
  a separate resolution event (`bargeAcquired`), which is what exposes the
  barge-tap acquisition window and the leak on early exit from SPEAKING.
* Truthiness tests on JavaScript strings (`if (data.text)`, `if (delta)`,
  `if (sid)`) become `≠ ""` tests; truthiness tests on nullable objects
  become `Bool` fields / `Option` matches.
-/

namespace ChatbotVoice

/-- Speech threshold used in the listening branch of
`startOrbAudioReactive.frame` (`const speechThreshold = 0.45`), in
hundredths of the normalized loudness scale. -/
def speechThreshold : ℤ := 45

/-- `const MIN_SPEECH_DURATION_MS = 400`. -/
def MIN_SPEECH_DURATION_MS : ℤ := 400

/-- `const UTTERANCE_SILENCE_LIMIT_MS = 1200`. -/
def UTTERANCE_SILENCE_LIMIT_MS : ℤ := 1200

/-- `const SPEAKING_COOLDOWN_MS = 250`. -/
def SPEAKING_COOLDOWN_MS : ℤ := 250

/-- `const BARGE_IN_MS = 700` in `startBargeInDetector.frame`. -/
def BARGE_IN_MS : ℤ := 700

/-- `const gate = 0.06` in `startBargeInDetector.frame`, in hundredths of
the normalized loudness scale. -/
def bargeGate : ℤ := 6

/-- The silence-detection module variables of `chatbot-voice.js`
(lines 19-23): `listeningHasHeardSpeech`, `utteranceSilenceMs`,
`lastUserVoiceActivityTs`, `speechDurationMs`. -/
structure DetSt where
  listeningHasHeardSpeech : Bool
  utteranceSilenceMs : ℤ
  lastUserVoiceActivityTs : ℤ
  speechDurationMs : ℤ
  deriving Repr, DecidableEq

/-- The initial values of the silence-detection variables, also the values
restored by `setVoiceState` when leaving LISTENING and by
`startVoiceRecording`. -/
def freshDet : DetSt :=
  { listeningHasHeardSpeech := false
    utteranceSilenceMs := 0
    lastUserVoiceActivityTs := 0
    speechDurationMs := 0 }

/-- One listening-mode detector step, embedded from the
`if (voiceState === VOICE_STATE.LISTENING)` branch of
`startOrbAudioReactive.frame` (chatbot-voice.js lines 262-295).
`now` is `nowTs`, `n` is the normalized loudness sample, `dt` the elapsed
milliseconds since the previous frame.  The returned `Bool` is `true` when
the step reaches the utterance-silence limit and calls
`stopVoiceRecordingAndSend` (the `UtteranceComplete` trigger). -/
def detStep (now n dt : ℤ) (d : DetSt) : DetSt × Bool :=
  if n > speechThreshold then
    -- Speech detected: accumulate speech duration
    let d := { d with
      speechDurationMs := d.speechDurationMs + dt
      utteranceSilenceMs := 0
      lastUserVoiceActivityTs := now }
    -- Only mark as valid speech if detected for the minimum duration
    if d.speechDurationMs ≥ MIN_SPEECH_DURATION_MS then
      ({ d with listeningHasHeardSpeech := true }, false)
    else (d, false)
  else
    -- Below threshold: reset speech duration counter
    let d := { d with speechDurationMs := 0 }
    if d.listeningHasHeardSpeech then
      let d := { d with utteranceSilenceMs := d.utteranceSilenceMs + dt }
      if d.utteranceSilenceMs ≥ UTTERANCE_SILENCE_LIMIT_MS then
        ({ d with utteranceSilenceMs := 0 }, true)
      else (d, false)
    else (d, false)

/-- One loudness sample as seen by one animation frame: the frame timestamp
`now`, the normalized loudness `level` (the value `n` computed from the RMS
of the analyser data), and the elapsed time `dt` since the previous frame. -/
structure LoudnessSample where
  now : ℤ
  level : ℤ
  dt : ℤ
  deriving Repr, DecidableEq

/-- Run the listening-mode detector over a sequence of loudness samples,
counting how many times the utterance-silence limit fires
(`stopVoiceRecordingAndSend` calls). -/
def detRun (st : DetSt × ℕ) (l : List LoudnessSample) : DetSt × ℕ :=
  l.foldl
    (fun st x =>
      let r := detStep x.now x.level x.dt st.1
      (r.1, st.2 + (if r.2 then 1 else 0)))
    st

/-- The running length (in ms) of the current trailing above-threshold run,
starting from credit `c`: this is the value `speechDurationMs` holds after
processing the samples, mirroring the accumulate/reset discipline of the
frame handler. -/
def trailingRunMs (c : ℤ) (l : List LoudnessSample) : ℤ :=
  l.foldl (fun acc x => if x.level > speechThreshold then acc + x.dt else 0) c

/-! ### Backend voice-turn events and the stream accumulator

Embedding of the callback passed to `window.visionAPI.voiceChatStream` inside
`stopVoiceRecordingAndSend` (chatbot-voice.js lines 628-701), together with
the surrounding accumulator variables `fullLLMText`, `audioChunks`,
`finalSessionId`. -/

/-- One named event of the streamed voice-turn response (§4.5 vocabulary).
String payload fields model the corresponding `data` fields; a missing or
null JavaScript field is the empty string (both are falsy under the guards
the callback uses). -/
inductive VEvent where
  | sttResult (text : String)
  | llmToken (delta : String)
  | llmDone (text : String)
  | ttsChunk (audio : String)
  | ttsDone
  | doneEv (sessionId : String)
  | errorEv (message : String)
  deriving Repr, DecidableEq

/-- Accumulator state of one in-flight voice turn: `fullLLMText` and
`audioChunks` (we track the chunk count; decoding is modelled as
successful), `finalSessionId`, plus the text last handed to the assistant
pending bubble (`updateAssistantPendingText` / `replaceAssistantPending`)
and whether the turn ended in the thrown-error path. -/
structure VoiceAcc where
  fullLLMText : String
  audioChunks : ℕ
  finalSessionId : Option String
  rendered : String
  renderedIsError : Bool
  isError : Bool
  deriving Repr, DecidableEq

/-- Accumulator at the start of a turn (`fullLLMText = ''`,
`audioChunks = []`, `finalSessionId = state.sessionId`). -/
def freshVoiceAcc (sessionId : Option String) : VoiceAcc :=
  { fullLLMText := ""
    audioChunks := 0
    finalSessionId := sessionId
    rendered := ""
    renderedIsError := false
    isError := false }

/-- One invocation of the `voiceChatStream` callback on a non-error event
(chatbot-voice.js lines 632-691). -/
def voiceAccStep (a : VoiceAcc) : VEvent → VoiceAcc
  | .sttResult _ => a
    -- replaces the user bubble placeholder; the assistant accumulator is untouched
  | .llmToken delta =>
    if delta ≠ "" then
      let t := a.fullLLMText ++ delta
      { a with fullLLMText := t, rendered := t }
    else a
  | .llmDone text =>
    if text ≠ "" then
      { a with fullLLMText := text, rendered := text }
    else a
  | .ttsChunk audio =>
    if audio ≠ "" then { a with audioChunks := a.audioChunks + 1 } else a
  | .ttsDone => a
  | .doneEv sessionId =>
    if sessionId ≠ "" then { a with finalSessionId := some sessionId } else a
  | .errorEv _ => a

/-- Feed a whole event stream to the callback.  An `error` event renders the
error bubble and throws (chatbot-voice.js lines 693-700), so processing
stops there and the turn is marked failed: the rejection is handled by the
`catch` block of `stopVoiceRecordingAndSend`. -/
def voiceAccRun (a : VoiceAcc) : List VEvent → VoiceAcc
  | [] => a
  | .errorEv message :: _ =>
    let errorMsg := if message ≠ "" then message else "Voice chat error"
    { a with
      rendered := "**Error:** " ++ errorMsg
      renderedIsError := true
      isError := true }
  | e :: rest => voiceAccRun (voiceAccStep a e) rest

/-- Whether a voice-turn event is the terminal `error` event (the only one
whose callback invocation throws). -/
def VEvent.isErrorEv : VEvent → Bool
  | .errorEv _ => true
  | _ => false

/-- Whether a voice-turn event is one of the two assistant-text events. -/
def VEvent.isLlmEv : VEvent → Bool
  | .llmToken _ => true
  | .llmDone _ => true
  | _ => false

/-! ### The voice module state

One field per module-level variable of `chatbot-voice.js` that the claims
touch.  Heap objects held by a variable (`MediaStream`, `MediaRecorder`,
`AudioContext`, `Audio`, analyser buffers, `requestAnimationFrame` ids) are
tracked as `Bool` presence flags: `true` iff the variable currently holds a
live object.  `orbLastTs` / `bargeLastTs` are the `lastTs` closure variables
of the two animation-frame loops; `orbMicMode` records which of the two orb
loops is installed (`startOrbAudioReactive` = microphone loop with speech
detection, vs `startOrbAudioReactiveFromAudioElement` = playback loop).
`uploads` counts `voiceChatStream` network submissions.  `bargePending`
counts `getUserMedia` requests issued by `startBargeInDetector` whose
promise has not yet settled; `bargeLeaked` counts tap stream objects that a
later resolution overwrote without stopping their tracks (unreachable from
then on, hence never closable). -/

/-- `const VOICE_STATE = { IDLE: 'idle', ... }` value list, in source order. -/
def voiceStateValues : List String :=
  ["idle", "listening", "processing", "speaking", "error"]

structure ModuleState where
  voiceState : String
  lastSpeakingEndedAt : ℤ
  det : DetSt
  isVoiceRecording : Bool
  voiceRecorder : Bool
  voiceChunks : ℕ
  voiceStream : Bool
  audioCtx : Bool
  analyser : Bool
  analyserData : Bool
  analyserRaf : Bool
  orbLastTs : ℤ
  orbMicMode : Bool
  speakingAudio : Bool
  bargeStream : Bool
  bargeCtx : Bool
  bargeAnalyser : Bool
  bargeData : Bool
  bargeRaf : Bool
  bargeSpeechMs : ℤ
  bargeLastTs : ℤ
  bargePending : ℕ
  bargeLeaked : ℕ
  overlayVisible : Bool
  statusLabel : String
  uploads : ℕ
  deriving Repr, DecidableEq

/-- Module state right after the IIFE runs: `voiceState = VOICE_STATE.IDLE`,
all object variables null, all counters 0, voice UI overlay hidden. -/
def initState : ModuleState :=
  { voiceState := "idle"
    lastSpeakingEndedAt := 0
    det := freshDet
    isVoiceRecording := false
    voiceRecorder := false
    voiceChunks := 0
    voiceStream := false
    audioCtx := false
    analyser := false
    analyserData := false
    analyserRaf := false
    orbLastTs := 0
    orbMicMode := false
    speakingAudio := false
    bargeStream := false
    bargeCtx := false
    bargeAnalyser := false
    bargeData := false
    bargeRaf := false
    bargeSpeechMs := 0
    bargeLastTs := 0
    bargePending := 0
    bargeLeaked := 0
    overlayVisible := false
    statusLabel := ""
    uploads := 0 }

/-- `updateVoiceStatusLabel(state)` (lines 63-73): pick the label text for a
state (empty for idle and unknown states). -/
def updateVoiceStatusLabel (state : String) (s : ModuleState) : ModuleState :=
  let text :=
    if state = "listening" then "Listening…"
    else if state = "processing" then "Processing…"
    else if state = "speaking" then "Speaking…"
    else if state = "error" then "Something went wrong"
    else ""
  { s with statusLabel := text }

/-- `showVoiceUI()` (lines 139-148). -/
def showVoiceUI (s : ModuleState) : ModuleState := { s with overlayVisible := true }

/-- `hideVoiceUI()` (lines 151-158). -/
def hideVoiceUI (s : ModuleState) : ModuleState := { s with overlayVisible := false }

/-- `stopOrbAudioReactive()` (lines 381-404): cancel the animation frame,
drop the analyser and its buffer, close the audio context. -/
def stopOrbAudioReactive (s : ModuleState) : ModuleState :=
  { s with analyserRaf := false, analyserData := false, analyser := false, audioCtx := false }

/-- `startOrbAudioReactive(stream)` (lines 199-304): tear down any previous
orb loop, open a fresh audio context + analyser on the microphone stream and
install the listening-mode frame loop (whose closure captures
`lastTs = performance.now()`). -/
def startOrbAudioReactive (now : ℤ) (s : ModuleState) : ModuleState :=
  let s := stopOrbAudioReactive s
  { s with
    audioCtx := true
    analyser := true
    analyserData := true
    orbLastTs := now
    orbMicMode := true
    analyserRaf := true }

/-- `startOrbAudioReactiveFromAudioElement(audioElement)` (lines 307-378):
same audio graph but fed from the playing audio element; its frame loop does
no speech detection. -/
def startOrbAudioReactiveFromAudioElement (now : ℤ) (s : ModuleState) : ModuleState :=
  let s := stopOrbAudioReactive s
  { s with
    audioCtx := true
    analyser := true
    analyserData := true
    orbLastTs := now
    orbMicMode := false
    analyserRaf := true }

/-- `startBargeInDetector()` (lines 407-468): returns at once when a barge
loop, context or stream is already present; otherwise it only ISSUES the
`getUserMedia` request — the tap itself opens later, in the `.then`
continuation, modelled by `bargeAcquiredStep`.  (The guard does not check
for an already-pending request, faithfully to the source.) -/
def startBargeInDetector (s : ModuleState) : ModuleState :=
  if s.bargeRaf || s.bargeCtx || s.bargeStream then s
  else { s with bargePending := s.bargePending + 1 }

/-- `stopBargeInDetector()` (lines 471-487): cancel the loop, drop analyser
state, close the context, stop every track of the tap and zero the speech
counter. -/
def stopBargeInDetector (s : ModuleState) : ModuleState :=
  { s with
    bargeRaf := false
    bargeData := false
    bargeAnalyser := false
    bargeCtx := false
    bargeStream := false
    bargeSpeechMs := 0 }

/-- Resolution of one pending `getUserMedia` request issued by
`startBargeInDetector`: the `.then` continuation (lines 411-466) runs in
whatever state the module is in by then — it assigns `bargeStream`, builds
the audio context and analyser, zeroes `bargeSpeechMs`, captures
`lastTs = performance.now()` and installs the barge frame loop,
unconditionally overwriting whatever the barge variables held (an
overwritten stream object keeps its tracks live but becomes unreachable:
counted in `bargeLeaked`).  A denied request would be absorbed by the
final `catch`; the modelled environment grants permission. -/
def bargeAcquiredStep (now : ℤ) (s : ModuleState) : ModuleState :=
  if s.bargePending = 0 then s
  else
    let s := { s with bargePending := s.bargePending - 1 }
    let s :=
      if s.bargeStream then { s with bargeLeaked := s.bargeLeaked + 1 } else s
    { s with
      bargeStream := true
      bargeCtx := true
      bargeAnalyser := true
      bargeData := true
      bargeSpeechMs := 0
      bargeLastTs := now
      bargeRaf := true }

/-- `setVoiceState(next)` (lines 161-196), with `now` standing for the
`performance.now()` call in its body. -/
def setVoiceState (now : ℤ) (next : String) (s : ModuleState) : ModuleState :=
  if next ∉ voiceStateValues then s
  else if s.voiceState = next then s
  else
    let prev := s.voiceState
    let s := { s with voiceState := next }
    -- Show/hide UI overlay based on state
    let s := if next = "idle" then hideVoiceUI s else showVoiceUI s
    -- Reset silence detection when leaving listening state
    let s :=
      if prev = "listening" ∧ next ≠ "listening" then { s with det := freshDet } else s
    -- Track when speaking ends for cooldown period
    let s :=
      if prev = "speaking" ∧ next = "idle" then { s with lastSpeakingEndedAt := now } else s
    -- Start/stop barge-in detector when entering/leaving speaking state
    let s :=
      if prev ≠ "speaking" ∧ next = "speaking" then startBargeInDetector s
      else if prev = "speaking" ∧ next ≠ "speaking" then stopBargeInDetector s
      else s
    updateVoiceStatusLabel next s

/-- `stopVoiceAssistantCompletely()` (lines 490-524). -/
def stopVoiceAssistantCompletely (now : ℤ) (s : ModuleState) : ModuleState :=
  let s := { s with voiceRecorder := false, voiceChunks := 0, isVoiceRecording := false }
  -- Stop microphone stream
  let s := { s with voiceStream := false }
  let s := stopOrbAudioReactive s
  -- Stop speaking audio if playing
  let s := { s with speakingAudio := false }
  let s := stopBargeInDetector s
  setVoiceState now "idle" s

/-- `startVoiceRecording()` (lines 527-554), with `getUserMedia` granted.
Within the post-speaking cooldown window the function returns before
touching anything. -/
def startVoiceRecording (now : ℤ) (s : ModuleState) : ModuleState :=
  if now - s.lastSpeakingEndedAt < SPEAKING_COOLDOWN_MS then s
  else
    let s := { s with
      voiceStream := true
      voiceChunks := 0
      voiceRecorder := true
      isVoiceRecording := true
      det := freshDet }
    let s := setVoiceState now "listening" s
    startOrbAudioReactive now s

/-- The no-valid-speech branch of `stopVoiceRecordingAndSend`
(lines 562-583): stop recording without sending to the backend, discard the
captured chunks, stay in LISTENING and auto-start listening again. -/
def stopNoSpeechPath (now : ℤ) (s : ModuleState) : ModuleState :=
  let s := stopOrbAudioReactive s
  let s := { s with
    isVoiceRecording := false
    voiceStream := false
    voiceRecorder := false
    voiceChunks := 0 }
  let s := setVoiceState now "listening" s
  startVoiceRecording now s

/-- The valid-speech branch of `stopVoiceRecordingAndSend` (lines 585-786):
stop the recorder, switch to PROCESSING, submit the audio and consume the
streamed turn, then hand off to playback (SPEAKING) or recover to
LISTENING. -/
def sendTurnPath (now : ℤ) (evs : List VEvent) (playOk : Bool)
    (s : ModuleState) : ModuleState :=
  let s := stopOrbAudioReactive s
  let s := setVoiceState now "processing" s
  let s := { s with
    isVoiceRecording := false
    voiceStream := false
    uploads := s.uploads + 1 }
  let acc := voiceAccRun (freshVoiceAcc none) evs
  if acc.isError then
    -- catch block (lines 773-783): recover to LISTENING and re-arm
    let s := setVoiceState now "listening" s
    startVoiceRecording now s
  else if acc.audioChunks ≠ 0 then
    -- audioBlob present: `speakingAudio = audio` then `audio.play()`
    let s := { s with speakingAudio := true }
    if playOk then
      let s := setVoiceState now "speaking" s
      startOrbAudioReactiveFromAudioElement now s
    else
      -- play() rejected (lines 749-756)
      let s := { s with speakingAudio := false }
      let s := setVoiceState now "listening" s
      startVoiceRecording now s
  else
    -- No TTS audio returned (lines 767-772)
    let s := setVoiceState now "listening" s
    startVoiceRecording now s

/-- `stopVoiceRecordingAndSend()` (lines 557-786).  `evs` is the event
stream the backend will deliver for this turn, `playOk` tells whether
`audio.play()` resolves.  The injected DOM/render dependencies are assumed
wired (they are, after `init`), `getActive()` is assumed non-null and the
user authenticated, as in the scenarios the claims quantify over.
`MediaRecorder.stop()` on a recorder that is not recording throws
`InvalidStateError` before any module variable is assigned; every call site
discards the rejection, so that case leaves the state unchanged. -/
def stopVoiceRecordingAndSend (now : ℤ) (evs : List VEvent) (playOk : Bool)
    (s : ModuleState) : ModuleState :=
  if ¬ s.voiceRecorder then s
  else if ¬ s.isVoiceRecording then s
  else if ¬ s.det.listeningHasHeardSpeech then stopNoSpeechPath now s
  else sendTurnPath now evs playOk s

/-! ### External events and the reachable-state relation

Each constructor is one asynchronous callback delivered to the module by the
host page: a user click, one animation frame of one of the two loops, the
`onended` handler of the playing assistant audio, or an explicit public API
call.  A frame event carries the loudness sample the analyser produced; a
frame that triggers the auto-stop continues into `stopVoiceRecordingAndSend`,
so it also carries that turn's stream events and playback outcome. -/

inductive MEvent where
  | userStartVoice (now : ℤ)
  | orbFrame (now level : ℤ) (evs : List VEvent) (playOk : Bool)
  | stopAndSend (now : ℤ) (evs : List VEvent) (playOk : Bool)
  | bargeFrame (now rms : ℤ)
  | bargeAcquired (now : ℤ)
  | playbackEnded (now : ℤ)
  | fullStop (now : ℤ)
  deriving Repr

/-- One animation frame of the orb loop (`frame` closures at lines 225-298
and 333-372).  Both loops bail out when the analyser is gone and both
refresh `lastTs`; only the microphone-mode loop runs the listening-branch
speech detection, and on reaching the silence limit it calls
`stopVoiceRecordingAndSend` (re-checking that the state is still
LISTENING, which it is within the same synchronous frame). -/
def orbFrameStep (now level : ℤ) (evs : List VEvent) (playOk : Bool)
    (s : ModuleState) : ModuleState :=
  if ¬ (s.analyser ∧ s.analyserData) then s
  else
    let dt := now - s.orbLastTs
    let s := { s with orbLastTs := now }
    if s.orbMicMode ∧ s.voiceState = "listening" then
      let r := detStep now level dt s.det
      let s := { s with det := r.1 }
      if r.2 then stopVoiceRecordingAndSend now evs playOk s else s
    else s

/-- One animation frame of the barge-in loop (`frame` closure at lines
425-464): bail out when its analyser is gone or the state left SPEAKING;
otherwise accumulate/reset `bargeSpeechMs` against the gate and trigger the
interruption at `BARGE_IN_MS`: discard playback, tear the monitor down, go
to LISTENING and start a new recording. -/
def bargeFrameStep (now rms : ℤ) (s : ModuleState) : ModuleState :=
  if ¬ (s.bargeAnalyser ∧ s.bargeData) then s
  else if s.voiceState ≠ "speaking" then s
  else
    let dt := now - s.bargeLastTs
    -- Accumulate speech duration if above threshold, reset otherwise
    let speechMs := if rms > bargeGate then s.bargeSpeechMs + dt else 0
    let s := { s with bargeLastTs := now, bargeSpeechMs := speechMs }
    if s.bargeSpeechMs ≥ BARGE_IN_MS then
      let s := { s with speakingAudio := false }
      let s := stopBargeInDetector s
      let s := setVoiceState now "listening" s
      startVoiceRecording now s
    else s

/-- The `audio.onended` handler (lines 757-766); it can only fire for the
currently playing assistant audio. -/
def playbackEndedStep (now : ℤ) (s : ModuleState) : ModuleState :=
  if ¬ s.speakingAudio then s
  else
    let s := { s with speakingAudio := false }
    let s := stopOrbAudioReactive s
    let s := setVoiceState now "listening" s
    startVoiceRecording now s

/-- Apply one external event. -/
def step (e : MEvent) (s : ModuleState) : ModuleState :=
  match e with
  | .userStartVoice now => startVoiceRecording now s
  | .orbFrame now level evs playOk => orbFrameStep now level evs playOk s
  | .stopAndSend now evs playOk => stopVoiceRecordingAndSend now evs playOk s
  | .bargeFrame now rms => bargeFrameStep now rms s
  | .bargeAcquired now => bargeAcquiredStep now s
  | .playbackEnded now => playbackEndedStep now s
  | .fullStop now => stopVoiceAssistantCompletely now s

/-- Run a sequence of external events from a state. -/
def runEvents (l : List MEvent) (s : ModuleState) : ModuleState :=
  l.foldl (fun s e => step e s) s

/-- States the module can be in: the initial state and everything the
external events can produce from it. -/
inductive Reachable : ModuleState → Prop where
  | init : Reachable initState
  | next {s : ModuleState} (e : MEvent) : Reachable s → Reachable (step e s)

/-- The state-enumeration invariant the machine maintains: the voice state
is always one of the five `VOICE_STATE` strings (every write goes through
`setVoiceState`, whose membership guard rejects anything else). -/
def Inv (s : ModuleState) : Prop :=
  s.voiceState ∈ voiceStateValues

/-- Scenario E input: Listening entered at 300ms, a brief 100ms
above-threshold burst at 400ms, then silence for 31000ms (frames at
15400ms and 31400ms). -/
def idleScenarioTrace : List MEvent :=
  [.userStartVoice 300, .orbFrame 400 50 [] true,
   .orbFrame 15400 0 [] true, .orbFrame 31400 0 [] true]

/-- A run exhibiting the barge-tap acquisition race: reach SPEAKING at
2100ms (tap request pending), full stop at 2300ms, the request resolves at
2400ms, voice restarted at 2700ms. -/
def bargeRaceTrace : List MEvent :=
  [.userStartVoice 300, .orbFrame 800 50 [] true,
   .orbFrame 2100 0 [.llmDone "hi", .ttsChunk "x", .doneEv "s1"] true,
   .fullStop 2300, .bargeAcquired 2400, .userStartVoice 2700]


end ChatbotVoice

namespace ChatbotCore

/-! ### The text-turn stream consumer

Embedding of the streaming part of `sendTextMessage` in the chatbot core
(src/unnamed/part_004, the `for await (const evt of stream)` loop and the
final-response handling that follows it). -/

/-- The `data` object of a `done` event of the text stream
(`done { response, session_id, status, ... }`); absent fields are `none`. -/
structure DonePayload where
  response : Option String
  session_id : Option String
  status : Option String
  deriving Repr, DecidableEq

/-- One named event of the text-turn stream.  `otherEv` stands for any event
name the if-chain does not recognise (including the default `message`),
which the loop skips. -/
inductive TEvent where
  | metaEv (sessionId : String)
  | token (delta : String)
  | errorEv
  | doneEv (payload : DonePayload)
  | otherEv
  deriving Repr, DecidableEq

/-- Loop state of the `for await` consumption: the token accumulator `acc`,
the `sawError` flag, the tab's `state.sessionId` and `finalPayload`. -/
structure TextTurn where
  acc : String
  sawError : Bool
  sessionId : Option String
  finalPayload : Option DonePayload
  deriving Repr, DecidableEq

/-- The `for await (const evt of stream)` loop: `meta` updates the session
id when truthy, `token` appends a truthy delta to `acc` (the UI flush
throttle coalesces redraws only and is omitted), `error` just sets
`sawError` and continues, `done` stores its payload and breaks, anything
else is skipped. -/
def textLoopRun (st : TextTurn) : List TEvent → TextTurn
  | [] => st
  | .metaEv sid :: rest =>
    textLoopRun (if sid ≠ "" then { st with sessionId := some sid } else st) rest
  | .token delta :: rest =>
    textLoopRun (if delta ≠ "" then { st with acc := st.acc ++ delta } else st) rest
  | .errorEv :: rest => textLoopRun { st with sawError := true } rest
  | .doneEv payload :: _ => { st with finalPayload := some payload }
  | .otherEv :: rest => textLoopRun st rest

/-- Outcome of one text turn: the final answer text, whether the turn was
rendered as an error (`replaceAssistantPending(pendingId, answer ||
'(empty response)', isError)`), the rendered bubble text and the session id
kept for the next turn. -/
structure TextTurnResult where
  answer : String
  isError : Bool
  rendered : String
  sessionId : Option String
  deriving Repr, DecidableEq

/-- `sendTextMessage`'s stream consumption and final-response handling:
`answer = finalPayload?.response ?? acc`, session id taken from the done
payload when truthy, and
`isError = (finalPayload?.status === 'error') || sawError`. -/
def sendTextMessageResult (sessionId0 : Option String) (evs : List TEvent) :
    TextTurnResult :=
  let st := textLoopRun
    { acc := "", sawError := false, sessionId := sessionId0, finalPayload := none } evs
  let answer :=
    match st.finalPayload with
    | some p => p.response.getD st.acc
    | none => st.acc
  let sessionId :=
    match st.finalPayload with
    | some p =>
      match p.session_id with
      | some sid => if sid ≠ "" then some sid else st.sessionId
      | none => st.sessionId
    | none => st.sessionId
  let isError :=
    (match st.finalPayload with
      | some p => decide (p.status = some "error")
      | none => false) || st.sawError
  { answer := answer
    isError := isError
    rendered := if answer = "" then "(empty response)" else answer
    sessionId := sessionId }

/-- Whether the stream delivered a `done` event (before which the loop never
stops). -/
def hasDoneEv (evs : List TEvent) : Bool :=
  evs.any fun e => match e with | .doneEv _ => true | _ => false

/-- Whether the stream delivered an `error` event. -/
def hasErrorEv (evs : List TEvent) : Bool :=
  evs.any fun e => match e with | .errorEv => true | _ => false

/-- Concatenation, in arrival order, of all token deltas of the stream. -/
def deltasConcat (evs : List TEvent) : String :=
  evs.foldl (fun a e => match e with | .token d => a ++ d | _ => a) ""

end ChatbotCore

namespace ChatbotVoice

/-! ### Theorems -/

/-- C1: the spec's session idle limit does not exist in the code.
`lastUserVoiceActivityTs` is assigned (line 271) and reset (lines 176, 550)
but never read, and no handler compares elapsed time against 30000ms.
Evaluating the machine on Scenario E's input — Listening entered at 300ms, a
brief 100ms above-threshold burst at 400ms that sets the activity timestamp
while leaving `listeningHasHeardSpeech` false, then 31000ms of silent
samples — shows the activity timestamp is set and more than 30000ms of
sample time elapse after it, yet no `SessionIdleTimeout` teardown happens:
the state is still `listening`, the recorder and microphone stream are still
live, and nothing was uploaded, where the claim demands a transition to
`idle` with full teardown. -/
theorem c1_no_session_idle_timeout_on_concrete_trace :
    (runEvents idleScenarioTrace initState).det.lastUserVoiceActivityTs = 400 ∧
    (31400 : ℤ) -
      (runEvents idleScenarioTrace initState).det.lastUserVoiceActivityTs
        > 30000 ∧
    (runEvents idleScenarioTrace initState).voiceState = "listening" ∧
    (runEvents idleScenarioTrace initState).isVoiceRecording = true ∧
    (runEvents idleScenarioTrace initState).voiceStream = true ∧
    (runEvents idleScenarioTrace initState).analyserRaf = true ∧
    (runEvents idleScenarioTrace initState).uploads = 0 := by
  decide

/-- C3 counterexample: a text-turn stream that ends after a single `token`
event — no `done`, no `error` — is not treated as a failure: the code
renders the accumulated text as a successful turn (`isError = false`),
where the claim demands the same handling as an explicit `error` event. -/
theorem c3_stream_end_without_done_counterexample :
    let r := ChatbotCore.sendTextMessageResult none [ChatbotCore.TEvent.token "hi"]
    r.isError = false ∧ r.answer = "hi" ∧ r.rendered = "hi" := by
  decide

/-- C4 counterexample: for the voice-turn event sequence
`[llm_token "a", llm_done ""]` the `llm_done` handler's `data.text`
truthiness guard rejects the empty final text, so the retained and rendered
assistant text stays the token concatenation `"a"` instead of the
`llm_done` event's text field `""`. -/
theorem c4_empty_llm_done_counterexample :
    let a := voiceAccRun (freshVoiceAcc none) [.llmToken "a", .llmDone ""]
    a.fullLLMText = "a" ∧ a.rendered = "a" ∧ a.fullLLMText ≠ "" := by
  decide

/-- C8 counterexample: a run that reaches SPEAKING (Listening from 300ms,
valid speech by 800ms, silence auto-stop at 2100ms, backend turn with TTS
audio, playback starts) and then leaves SPEAKING to LISTENING when playback
ends at 2200ms.  The attempt to start a new Listening recording happens
immediately (0ms < 250ms after leaving Speaking) and is NOT suppressed:
capture opens, because `lastSpeakingEndedAt` is only assigned on a
SPEAKING→IDLE transition (line 183), never on SPEAKING→LISTENING. -/
theorem c8_exit_to_listening_not_suppressed_counterexample :
    let tr : List MEvent :=
      [.userStartVoice 300, .orbFrame 800 50 [] true,
       .orbFrame 2100 0 [.llmDone "hi", .ttsChunk "x", .doneEv "s1"] true,
       .playbackEnded 2200]
    (runEvents (tr.take 3) initState).voiceState = "speaking" ∧
    (runEvents tr initState).voiceState = "listening" ∧
    (runEvents tr initState).voiceStream = true ∧
    (runEvents tr initState).isVoiceRecording = true := by
  decide

/-- `setVoiceState _ "listening"`, written out.  Entering LISTENING never
resets the detection session (the reset condition requires leaving
LISTENING) and never touches the cooldown timestamp; it clears the barge-in
detector exactly when the previous state was SPEAKING. -/
theorem setVoiceState_listening_eq (now : ℤ) (s : ModuleState) :
    setVoiceState now "listening" s =
      if s.voiceState = "listening" then s
      else if s.voiceState = "speaking" then
        { s with
          voiceState := "listening"
          overlayVisible := true
          statusLabel := "Listening…"
          bargeRaf := false
          bargeData := false
          bargeAnalyser := false
          bargeCtx := false
          bargeStream := false
          bargeSpeechMs := 0 }
      else
        { s with
          voiceState := "listening"
          overlayVisible := true
          statusLabel := "Listening…" } := by
  obtain ⟨vs, lse, det, ivr, vr, vc, vstr, ac, an, ad, araf, olt, omm, sa,
    bs, bc, ba, bd, braf, bsm, blt, bp, bl, ov, sl, up⟩ := s
  rw [setVoiceState]
  split_ifs <;> simp_all [stopBargeInDetector, startBargeInDetector,
    hideVoiceUI, showVoiceUI, updateVoiceStatusLabel, voiceStateValues]

/-- `setVoiceState _ "processing"`, written out: leaving LISTENING resets
the detection session, leaving SPEAKING clears the barge-in detector. -/
theorem setVoiceState_processing_eq (now : ℤ) (s : ModuleState) :
    setVoiceState now "processing" s =
      if s.voiceState = "processing" then s
      else if s.voiceState = "listening" then
        { s with
          voiceState := "processing"
          overlayVisible := true
          statusLabel := "Processing…"
          det := freshDet }
      else if s.voiceState = "speaking" then
        { s with
          voiceState := "processing"
          overlayVisible := true
          statusLabel := "Processing…"
          bargeRaf := false
          bargeData := false
          bargeAnalyser := false
          bargeCtx := false
          bargeStream := false
          bargeSpeechMs := 0 }
      else
        { s with
          voiceState := "processing"
          overlayVisible := true
          statusLabel := "Processing…" } := by
  obtain ⟨vs, lse, det, ivr, vr, vc, vstr, ac, an, ad, araf, olt, omm, sa,
    bs, bc, ba, bd, braf, bsm, blt, bp, bl, ov, sl, up⟩ := s
  rw [setVoiceState]
  split_ifs <;> simp_all [stopBargeInDetector, startBargeInDetector,
    hideVoiceUI, showVoiceUI, updateVoiceStatusLabel, voiceStateValues]

/-- `setVoiceState _ "speaking"`, written out: entering SPEAKING from any
other state issues the asynchronous barge-tap request (a no-op when barge
resources are still present); the tap itself is NOT opened here — it opens
only when the request resolves (`bargeAcquiredStep`). -/
theorem setVoiceState_speaking_eq (now : ℤ) (s : ModuleState) :
    setVoiceState now "speaking" s =
      if s.voiceState = "speaking" then s
      else if s.bargeRaf ∨ s.bargeCtx ∨ s.bargeStream then
        { s with
          voiceState := "speaking"
          overlayVisible := true
          statusLabel := "Speaking…"
          det := if s.voiceState = "listening" then freshDet else s.det }
      else
        { s with
          voiceState := "speaking"
          overlayVisible := true
          statusLabel := "Speaking…"
          det := if s.voiceState = "listening" then freshDet else s.det
          bargePending := s.bargePending + 1 } := by
  obtain ⟨vs, lse, det, ivr, vr, vc, vstr, ac, an, ad, araf, olt, omm, sa,
    bs, bc, ba, bd, braf, bsm, blt, bp, bl, ov, sl, up⟩ := s
  rw [setVoiceState]
  split_ifs <;> simp_all [stopBargeInDetector, startBargeInDetector,
    hideVoiceUI, showVoiceUI, updateVoiceStatusLabel, voiceStateValues,
    or_assoc]

/-- `startVoiceRecording`, written out: a no-op inside the post-speaking
cooldown window; otherwise it opens capture, resets the detection session,
moves to LISTENING (tearing the barge-in detector down when coming from
SPEAKING) and restarts the microphone orb loop. -/
theorem startVoiceRecording_eq (now : ℤ) (s : ModuleState) :
    startVoiceRecording now s =
      if now - s.lastSpeakingEndedAt < SPEAKING_COOLDOWN_MS then s
      else
        { s with
          voiceStream := true
          voiceChunks := 0
          voiceRecorder := true
          isVoiceRecording := true
          det := freshDet
          voiceState := "listening"
          overlayVisible := if s.voiceState = "listening" then s.overlayVisible else true
          statusLabel := if s.voiceState = "listening" then s.statusLabel else "Listening…"
          bargeRaf := if s.voiceState = "speaking" then false else s.bargeRaf
          bargeData := if s.voiceState = "speaking" then false else s.bargeData
          bargeAnalyser := if s.voiceState = "speaking" then false else s.bargeAnalyser
          bargeCtx := if s.voiceState = "speaking" then false else s.bargeCtx
          bargeStream := if s.voiceState = "speaking" then false else s.bargeStream
          bargeSpeechMs := if s.voiceState = "speaking" then 0 else s.bargeSpeechMs
          audioCtx := true
          analyser := true
          analyserData := true
          orbLastTs := now
          orbMicMode := true
          analyserRaf := true } := by
  obtain ⟨vs, lse, det, ivr, vr, vc, vstr, ac, an, ad, araf, olt, omm, sa,
    bs, bc, ba, bd, braf, bsm, blt, bp, bl, ov, sl, up⟩ := s
  simp only [startVoiceRecording]
  rw [setVoiceState_listening_eq]
  split_ifs <;> simp_all [startOrbAudioReactive, stopOrbAudioReactive]

/-- `stopVoiceAssistantCompletely`, written out: everything torn down, state
idle; the pre-state only shows through in the fields `setVoiceState` touches
conditionally and in the fields no teardown writes. -/
theorem stopVoiceAssistantCompletely_eq (now : ℤ) (s : ModuleState) :
    stopVoiceAssistantCompletely now s =
      { voiceState := "idle"
        lastSpeakingEndedAt :=
          if s.voiceState = "speaking" then now else s.lastSpeakingEndedAt
        det := if s.voiceState = "listening" then freshDet else s.det
        isVoiceRecording := false
        voiceRecorder := false
        voiceChunks := 0
        voiceStream := false
        audioCtx := false
        analyser := false
        analyserData := false
        analyserRaf := false
        orbLastTs := s.orbLastTs
        orbMicMode := s.orbMicMode
        speakingAudio := false
        bargeStream := false
        bargeCtx := false
        bargeAnalyser := false
        bargeData := false
        bargeRaf := false
        bargeSpeechMs := 0
        bargeLastTs := s.bargeLastTs
        bargePending := s.bargePending
        bargeLeaked := s.bargeLeaked
        overlayVisible := if s.voiceState = "idle" then s.overlayVisible else false
        statusLabel := if s.voiceState = "idle" then s.statusLabel else ""
        uploads := s.uploads } := by
  obtain ⟨vs, lse, det, ivr, vr, vc, vstr, ac, an, ad, araf, olt, omm, sa,
    bs, bc, ba, bd, braf, bsm, blt, bp, bl, ov, sl, up⟩ := s
  show (setVoiceState now "idle" _) = _
  rw [setVoiceState]
  split_ifs <;> simp_all [stopOrbAudioReactive, stopBargeInDetector,
    startBargeInDetector, hideVoiceUI, showVoiceUI, updateVoiceStatusLabel,
    voiceStateValues]

theorem inv_initState : Inv initState := by
  simp [Inv, initState, voiceStateValues]

/-- `Inv` only looks at `voiceState`, so it transfers along any state
change that leaves `voiceState` alone. -/
theorem inv_of_voiceState_eq (s t : ModuleState) (h : Inv s)
    (he : t.voiceState = s.voiceState) : Inv t := by
  simp only [Inv] at *
  rw [he]
  exact h

theorem inv_setVoiceState (now : ℤ) (next : String) (s : ModuleState)
    (h : Inv s) : Inv (setVoiceState now next s) := by
  by_cases h1 : next ∈ voiceStateValues
  · by_cases h2 : s.voiceState = next
    · rw [setVoiceState, if_neg (by simp [h1]), if_pos h2]
      exact h
    · rw [setVoiceState, if_neg (by simp [h1]), if_neg h2]
      simp only [Inv, updateVoiceStatusLabel, showVoiceUI, hideVoiceUI,
        startBargeInDetector, stopBargeInDetector,
        apply_ite ModuleState.voiceState]
      simp [h1]
  · rw [setVoiceState, if_pos (by simp [h1])]
    exact h

theorem inv_startVoiceRecording (now : ℤ) (s : ModuleState) (h : Inv s) :
    Inv (startVoiceRecording now s) := by
  rw [startVoiceRecording_eq]
  split_ifs <;> simp_all [Inv, voiceStateValues]

theorem inv_stopVoiceAssistantCompletely (now : ℤ) (s : ModuleState) :
    Inv (stopVoiceAssistantCompletely now s) := by
  rw [stopVoiceAssistantCompletely_eq]
  simp [Inv, voiceStateValues]

theorem inv_stopNoSpeechPath (now : ℤ) (s : ModuleState) (h : Inv s) :
    Inv (stopNoSpeechPath now s) := by
  simp only [stopNoSpeechPath]
  exact inv_startVoiceRecording now _
    (inv_setVoiceState now _ _ (inv_of_voiceState_eq s _ h rfl))

theorem inv_sendTurnPath (now : ℤ) (evs : List VEvent) (playOk : Bool)
    (s : ModuleState) (h : Inv s) :
    Inv (sendTurnPath now evs playOk s) := by
  simp only [sendTurnPath]
  have hstop : Inv (stopOrbAudioReactive s) := inv_of_voiceState_eq s _ h rfl
  have hp : Inv { setVoiceState now "processing" (stopOrbAudioReactive s) with
      isVoiceRecording := false
      voiceStream := false
      uploads :=
        (setVoiceState now "processing" (stopOrbAudioReactive s)).uploads + 1 } :=
    inv_of_voiceState_eq _ _
      (inv_setVoiceState now "processing" (stopOrbAudioReactive s) hstop) rfl
  split_ifs with h1 h2 h3
  · exact inv_startVoiceRecording now _ (inv_setVoiceState now _ _ hp)
  · refine inv_of_voiceState_eq _ _ (inv_setVoiceState now "speaking" _ ?_) rfl
    exact inv_of_voiceState_eq _ _ hp rfl
  · refine inv_startVoiceRecording now _ (inv_setVoiceState now _ _ ?_)
    exact inv_of_voiceState_eq _ _ hp rfl
  · exact inv_startVoiceRecording now _ (inv_setVoiceState now _ _ hp)

theorem inv_stopVoiceRecordingAndSend (now : ℤ) (evs : List VEvent)
    (playOk : Bool) (s : ModuleState) (h : Inv s) :
    Inv (stopVoiceRecordingAndSend now evs playOk s) := by
  rw [stopVoiceRecordingAndSend]
  split_ifs
  · exact inv_sendTurnPath now evs playOk s h
  · exact inv_stopNoSpeechPath now s h
  · exact h
  · exact h

theorem inv_orbFrameStep (now level : ℤ) (evs : List VEvent) (playOk : Bool)
    (s : ModuleState) (h : Inv s) :
    Inv (orbFrameStep now level evs playOk s) := by
  simp only [orbFrameStep]
  split_ifs
  all_goals
    first
      | exact h
      | exact inv_of_voiceState_eq s _ h rfl
      | exact inv_stopVoiceRecordingAndSend now evs playOk _
          (inv_of_voiceState_eq s _ h rfl)

theorem inv_bargeFrameStep (now rms : ℤ) (s : ModuleState) (h : Inv s) :
    Inv (bargeFrameStep now rms s) := by
  simp only [bargeFrameStep]
  split_ifs
  all_goals
    first
      | exact h
      | exact inv_of_voiceState_eq s _ h rfl
      | exact inv_startVoiceRecording now _
          (inv_setVoiceState now _ _ (inv_of_voiceState_eq s _ h rfl))

theorem inv_bargeAcquiredStep (now : ℤ) (s : ModuleState) (h : Inv s) :
    Inv (bargeAcquiredStep now s) := by
  simp only [bargeAcquiredStep]
  split_ifs
  all_goals exact h

theorem inv_playbackEndedStep (now : ℤ) (s : ModuleState) (h : Inv s) :
    Inv (playbackEndedStep now s) := by
  simp only [playbackEndedStep]
  split_ifs
  all_goals
    first
      | exact h
      | exact inv_startVoiceRecording now _
          (inv_setVoiceState now _ _ (inv_of_voiceState_eq s _ h rfl))

theorem inv_step (e : MEvent) (s : ModuleState) (h : Inv s) : Inv (step e s) := by
  cases e with
  | userStartVoice now => exact inv_startVoiceRecording now s h
  | orbFrame now level evs playOk => exact inv_orbFrameStep now level evs playOk s h
  | stopAndSend now evs playOk => exact inv_stopVoiceRecordingAndSend now evs playOk s h
  | bargeFrame now rms => exact inv_bargeFrameStep now rms s h
  | bargeAcquired now => exact inv_bargeAcquiredStep now s h
  | playbackEnded now => exact inv_playbackEndedStep now s h
  | fullStop now => exact inv_stopVoiceAssistantCompletely now s

theorem inv_reachable (s : ModuleState) (h : Reachable s) : Inv s := by
  induction h with
  | init => exact inv_initState
  | next e _ ih => exact inv_step e _ ih

/-- C2 counterexample, on a reachable run.  The turn flow reaches SPEAKING
at t=2100: `setVoiceState` only issues the asynchronous `getUserMedia`
request (`bargePending = 1`), so the state is SPEAKING with the barge tap
NOT open — refuting the "open iff Speaking" biconditional.  The user stops
everything at t=2300 (back to idle; the pending browser request cannot be
cancelled), the request resolves at t=2400 and the `.then` continuation
opens the tap anyway; the frame loop bails at line 427 without releasing
it.  Restarting voice at t=2700 then opens the listening microphone while
the leaked barge tap is still open — refuting the exclusivity conjunct. -/
theorem c2_async_barge_counterexample :
    (runEvents (bargeRaceTrace.take 3) initState).voiceState = "speaking" ∧
    (runEvents (bargeRaceTrace.take 3) initState).bargeStream = false ∧
    (runEvents (bargeRaceTrace.take 3) initState).bargePending = 1 ∧
    (runEvents (bargeRaceTrace.take 5) initState).voiceState = "idle" ∧
    (runEvents (bargeRaceTrace.take 5) initState).bargeStream = true ∧
    (runEvents bargeRaceTrace initState).voiceState = "listening" ∧
    (runEvents bargeRaceTrace initState).voiceStream = true ∧
    (runEvents bargeRaceTrace initState).bargeStream = true := by
  decide

/-- C2 (amended): the barge-in tap lifecycle that actually holds.  Every
entry to SPEAKING issues one asynchronous tap request and does not open the
tap itself (so SPEAKING holds before the tap opens); every exit from
SPEAKING — via `setVoiceState` to any other state, or via the full stop —
releases the tap and loop it currently holds; a pending request that
resolves opens the tap whatever the state is by then; and outside SPEAKING
the barge frame loop returns without releasing anything, which is why a
tap acquired after an early exit leaks until the next exit-from-SPEAKING
transition or full stop and can coexist with the listening microphone. -/
theorem c2_amended_barge_async_lifecycle :
    (∀ (s : ModuleState) (now : ℤ), s.voiceState ≠ "speaking" →
      s.bargeRaf = false → s.bargeCtx = false → s.bargeStream = false →
      (setVoiceState now "speaking" s).bargePending = s.bargePending + 1 ∧
      (setVoiceState now "speaking" s).bargeStream = false) ∧
    (∀ (s : ModuleState) (now : ℤ) (next : String), s.voiceState = "speaking" →
      next ∈ voiceStateValues → next ≠ "speaking" →
      (setVoiceState now next s).bargeStream = false ∧
      (setVoiceState now next s).bargeRaf = false ∧
      (setVoiceState now next s).bargeCtx = false) ∧
    (∀ (s : ModuleState) (now : ℤ),
      (stopVoiceAssistantCompletely now s).bargeStream = false ∧
      (stopVoiceAssistantCompletely now s).bargeRaf = false) ∧
    (∀ (s : ModuleState) (now : ℤ), s.bargePending ≠ 0 →
      (bargeAcquiredStep now s).bargeStream = true ∧
      (bargeAcquiredStep now s).bargeRaf = true) ∧
    (∀ (s : ModuleState) (now rms : ℤ), s.voiceState ≠ "speaking" →
      bargeFrameStep now rms s = s) := by
  refine ⟨fun s now h hr hc hstr => ?_, fun s now next h hmem hne => ?_,
    fun s now => ?_, fun s now h => ?_, fun s now rms h => ?_⟩
  · rw [setVoiceState_speaking_eq]
    rw [if_neg h, if_neg (by simp [hr, hc, hstr])]
    exact ⟨rfl, hstr⟩
  · rw [setVoiceState, if_neg (by simp [hmem]),
      if_neg (fun h2 => hne (h2.symm.trans h))]
    simp only [updateVoiceStatusLabel, showVoiceUI, hideVoiceUI,
      startBargeInDetector, stopBargeInDetector,
      apply_ite ModuleState.bargeStream, apply_ite ModuleState.bargeRaf,
      apply_ite ModuleState.bargeCtx]
    simp [h, hne]
  · rw [stopVoiceAssistantCompletely_eq]
    exact ⟨rfl, rfl⟩
  · simp only [bargeAcquiredStep]
    split_ifs <;> simp_all
  · rw [bargeFrameStep]
    split_ifs <;> simp_all

/-- Witness for C2 (amended) at concrete states: a fresh entry to SPEAKING,
an exit SPEAKING→LISTENING with the tap held, a full stop, the resolution
of a pending request while idle, and a barge frame outside SPEAKING. -/
theorem c2_amended_witness :
    (setVoiceState 1000 "speaking" initState).bargePending =
      initState.bargePending + 1 ∧
    (setVoiceState 1000 "speaking" initState).bargeStream = false ∧
    (setVoiceState 1100 "listening"
      { initState with
        voiceState := "speaking"
        bargeStream := true
        bargeCtx := true
        bargeAnalyser := true
        bargeData := true
        bargeRaf := true }).bargeStream = false ∧
    (stopVoiceAssistantCompletely 0 initState).bargeStream = false ∧
    (bargeAcquiredStep 2400 { initState with bargePending := 1 }).bargeStream =
      true ∧
    bargeFrameStep 0 0 initState = initState :=
  ⟨(c2_amended_barge_async_lifecycle.1 initState 1000 (by decide) rfl rfl rfl).1,
   (c2_amended_barge_async_lifecycle.1 initState 1000 (by decide) rfl rfl rfl).2,
   (c2_amended_barge_async_lifecycle.2.1 _ 1100 "listening" rfl (by decide)
     (by decide)).1,
   (c2_amended_barge_async_lifecycle.2.2.1 initState 0).1,
   (c2_amended_barge_async_lifecycle.2.2.2.1 _ 2400 (by decide)).1,
   c2_amended_barge_async_lifecycle.2.2.2.2 initState 0 0 (by decide)⟩

/-- Unfolding: the detector run does nothing on an empty sample list. -/
theorem detRun_nil (st : DetSt × ℕ) : detRun st [] = st := rfl

/-- Unfolding: one detector step followed by the rest of the run. -/
theorem detRun_cons (st : DetSt × ℕ) (x : LoudnessSample)
    (l : List LoudnessSample) :
    detRun st (x :: l) =
      detRun
        ((detStep x.now x.level x.dt st.1).1,
          st.2 + (if (detStep x.now x.level x.dt st.1).2 then 1 else 0)) l := rfl

/-- `trailingRunMs` over a cons: an above-threshold sample extends the run,
a sample at or below the threshold restarts it at 0. -/
theorem trailingRunMs_cons (c : ℤ) (x : LoudnessSample)
    (l : List LoudnessSample) :
    trailingRunMs c (x :: l) =
      trailingRunMs (if x.level > speechThreshold then c + x.dt else 0) l := rfl

/-- Core of C6: as long as every prefix keeps the trailing above-threshold
run below the debounce bound, the detector's speech-duration counter tracks
exactly that trailing run and `listeningHasHeardSpeech` is never set. -/
theorem detRun_heard_stays_false (l : List LoudnessSample) (d : DetSt) (k : ℕ)
    (hd : d.listeningHasHeardSpeech = false)
    (h : ∀ p q : List LoudnessSample, l = p ++ q →
      trailingRunMs d.speechDurationMs p < MIN_SPEECH_DURATION_MS) :
    (detRun (d, k) l).1.listeningHasHeardSpeech = false := by
  induction l generalizing d k with
  | nil => simpa [detRun_nil]
  | cons x rest ih =>
    rw [detRun_cons]
    by_cases hx : x.level > speechThreshold
    · have hsd : d.speechDurationMs + x.dt < MIN_SPEECH_DURATION_MS := by
        have := h [x] rest rfl
        simpa [trailingRunMs, hx] using this
      have hstep :
          detStep x.now x.level x.dt d =
            ({ d with
                speechDurationMs := d.speechDurationMs + x.dt
                utteranceSilenceMs := 0
                lastUserVoiceActivityTs := x.now }, false) := by
        rw [detStep, if_pos hx, if_neg (by simpa using not_le.mpr hsd)]
      rw [hstep]
      refine ih _ k hd ?_
      intro p q hpq
      have := h (x :: p) q (by rw [hpq]; rfl)
      simpa [trailingRunMs_cons, hx] using this
    · have hstep :
          detStep x.now x.level x.dt d = ({ d with speechDurationMs := 0 }, false) := by
        rw [detStep, if_neg hx]
        simp [hd]
      rw [hstep]
      refine ih _ k hd ?_
      intro p q hpq
      have := h (x :: p) q (by rw [hpq]; rfl)
      simpa [trailingRunMs_cons, hx] using this

/-- C6: over any loudness-sample sequence none of whose above-threshold
runs ever accumulates the minimum valid-speech duration (400ms) — stated
as: the trailing above-threshold run of every prefix stays below 400ms —
a fresh Listening session never sets `listeningHasHeardSpeech`. -/
theorem c6_short_bursts_never_set_heard (samples : List LoudnessSample)
    (h : ∀ p q : List LoudnessSample, samples = p ++ q →
      trailingRunMs 0 p < MIN_SPEECH_DURATION_MS) :
    (detRun (freshDet, 0) samples).1.listeningHasHeardSpeech = false :=
  detRun_heard_stays_false samples freshDet 0 rfl h

/-- Witness for C6: three isolated 200ms bursts at 0.8 loudness separated by
silence never set the heard-speech flag. -/
theorem c6_witness :
    (∀ p q : List LoudnessSample,
      [(⟨300, 80, 200⟩ : LoudnessSample), ⟨800, 0, 500⟩, ⟨1000, 80, 200⟩,
        ⟨1500, 0, 500⟩, ⟨1700, 80, 200⟩] = p ++ q →
      trailingRunMs 0 p < MIN_SPEECH_DURATION_MS) ∧
    (detRun (freshDet, 0)
      [⟨300, 80, 200⟩, ⟨800, 0, 500⟩, ⟨1000, 80, 200⟩,
        ⟨1500, 0, 500⟩, ⟨1700, 80, 200⟩]).1.listeningHasHeardSpeech = false := by
  have hpre : ∀ p q : List LoudnessSample,
      [(⟨300, 80, 200⟩ : LoudnessSample), ⟨800, 0, 500⟩, ⟨1000, 80, 200⟩,
        ⟨1500, 0, 500⟩, ⟨1700, 80, 200⟩] = p ++ q →
      trailingRunMs 0 p < MIN_SPEECH_DURATION_MS := by
    intro p q hpq
    have hp : p ∈ [(⟨300, 80, 200⟩ : LoudnessSample), ⟨800, 0, 500⟩,
        ⟨1000, 80, 200⟩, ⟨1500, 0, 500⟩, ⟨1700, 80, 200⟩].inits := by
      simp only [List.mem_inits]
      exact ⟨q, hpq.symm⟩
    fin_cases hp <;> decide
  exact ⟨hpre, c6_short_bursts_never_set_heard _ hpre⟩

/-- Fire counting is additive: starting the run at count `k` just offsets
the count of the run started at 0. -/
theorem detRun_fires_add (l : List LoudnessSample) (d : DetSt) (k : ℕ) :
    detRun (d, k) l = ((detRun (d, 0) l).1, k + (detRun (d, 0) l).2) := by
  induction l generalizing d k with
  | nil => simp [detRun_nil]
  | cons x rest ih =>
    rw [detRun_cons, detRun_cons]
    rw [ih _ (k + _), ih _ (0 + _)]
    simp only [Prod.mk.injEq, true_and]
    omega

/-- Speech phase: over a nonempty run of above-threshold samples with
nonnegative frame times, the detector never fires, ends with a cleared
silence counter, accumulates the whole run into `speechDurationMs`, and
sets `listeningHasHeardSpeech` exactly when the accumulated run reaches the
debounce minimum. -/
theorem detRun_speech_phase (l : List LoudnessSample) (d : DetSt) (k : ℕ)
    (hl : l ≠ [])
    (ha : ∀ x ∈ l, speechThreshold < x.level ∧ 0 ≤ x.dt) :
    (detRun (d, k) l).2 = k ∧
    (detRun (d, k) l).1.utteranceSilenceMs = 0 ∧
    (detRun (d, k) l).1.speechDurationMs =
      d.speechDurationMs + (l.map (·.dt)).sum ∧
    ((detRun (d, k) l).1.listeningHasHeardSpeech = true ↔
      (d.listeningHasHeardSpeech = true ∨
        MIN_SPEECH_DURATION_MS ≤ d.speechDurationMs + (l.map (·.dt)).sum)) := by
  induction l generalizing d k with
  | nil => exact absurd rfl hl
  | cons x rest ih =>
    obtain ⟨hx, hdt⟩ := ha x (List.mem_cons_self x rest)
    by_cases hmin : MIN_SPEECH_DURATION_MS ≤ d.speechDurationMs + x.dt
    · have hcons : detRun (d, k) (x :: rest) =
          detRun ({ d with
              speechDurationMs := d.speechDurationMs + x.dt
              utteranceSilenceMs := 0
              lastUserVoiceActivityTs := x.now
              listeningHasHeardSpeech := true }, k) rest := by
        rw [detRun_cons, detStep, if_pos hx, if_pos (by simpa using hmin)]
        rfl
      rw [hcons]
      rcases eq_or_ne rest [] with hrest | hrest
      · subst hrest
        refine ⟨rfl, rfl, by simp [detRun_nil], ?_⟩
        simp [detRun_nil, hmin]
      · obtain ⟨ih1, ih2, ih3, ih4⟩ :=
          ih _ k hrest (fun y hy => ha y (List.mem_cons_of_mem x hy))
        have hsum : 0 ≤ (rest.map (·.dt)).sum := by
          apply List.sum_nonneg
          intro y hy
          obtain ⟨z, hz, rfl⟩ := List.mem_map.mp hy
          exact (ha z (List.mem_cons_of_mem x hz)).2
        refine ⟨ih1, ih2, by rw [ih3]; simp; ring, ?_⟩
        rw [ih4]
        simp only [List.map_cons, List.sum_cons]
        constructor
        · intro _
          right
          omega
        · intro _
          left
          trivial
    · have hcons : detRun (d, k) (x :: rest) =
          detRun ({ d with
              speechDurationMs := d.speechDurationMs + x.dt
              utteranceSilenceMs := 0
              lastUserVoiceActivityTs := x.now }, k) rest := by
        rw [detRun_cons, detStep, if_pos hx, if_neg (by simpa using hmin)]
        rfl
      rw [hcons]
      rcases eq_or_ne rest [] with hrest | hrest
      · subst hrest
        refine ⟨rfl, rfl, by simp [detRun_nil], ?_⟩
        simpa [detRun_nil] using fun h => absurd h hmin
      · obtain ⟨ih1, ih2, ih3, ih4⟩ :=
          ih _ k hrest (fun y hy => ha y (List.mem_cons_of_mem x hy))
        refine ⟨ih1, ih2, by rw [ih3]; simp; ring, ?_⟩
        rw [ih4]
        simp only [List.map_cons, List.sum_cons]
        constructor
        · rintro (h | h)
          · exact Or.inl h
          · right; omega
        · rintro (h | h)
          · exact Or.inl h
          · right; omega

/-- Silence phase: over at-or-below-threshold samples with nonnegative
frame times, starting with the heard-speech flag set and a silence counter
in `[0, limit)`, the flag stays set, the counter stays in `[0, limit)`,
each fire consumes at least one full silence limit of fresh sample time,
and with no fire the counter is exactly the old counter plus the elapsed
time. -/
theorem detRun_silence_phase (l : List LoudnessSample) (d : DetSt)
    (hheard : d.listeningHasHeardSpeech = true)
    (ha : ∀ x ∈ l, x.level ≤ speechThreshold ∧ 0 ≤ x.dt)
    (h0 : 0 ≤ d.utteranceSilenceMs)
    (hlt : d.utteranceSilenceMs < UTTERANCE_SILENCE_LIMIT_MS) :
    (detRun (d, 0) l).1.listeningHasHeardSpeech = true ∧
    0 ≤ (detRun (d, 0) l).1.utteranceSilenceMs ∧
    (detRun (d, 0) l).1.utteranceSilenceMs < UTTERANCE_SILENCE_LIMIT_MS ∧
    UTTERANCE_SILENCE_LIMIT_MS * ((detRun (d, 0) l).2 : ℤ) +
        (detRun (d, 0) l).1.utteranceSilenceMs ≤
      d.utteranceSilenceMs + (l.map (·.dt)).sum ∧
    ((detRun (d, 0) l).2 = 0 →
      (detRun (d, 0) l).1.utteranceSilenceMs =
        d.utteranceSilenceMs + (l.map (·.dt)).sum) := by
  induction l generalizing d with
  | nil =>
    refine ⟨hheard, h0, hlt, by simp [detRun_nil], by simp [detRun_nil]⟩
  | cons x rest ih =>
    obtain ⟨hx, hdt⟩ := ha x (List.mem_cons_self x rest)
    by_cases hfire :
        UTTERANCE_SILENCE_LIMIT_MS ≤ d.utteranceSilenceMs + x.dt
    · have hcons : detRun (d, 0) (x :: rest) =
          detRun ({ d with
              speechDurationMs := 0
              utteranceSilenceMs := 0 }, 1) rest := by
        rw [detRun_cons, detStep, if_neg (by simpa using not_lt.mpr hx)]
        simp [hheard, hfire]
      obtain ⟨ih1, ih2, ih3, ih4, ih5⟩ :=
        ih { d with speechDurationMs := 0, utteranceSilenceMs := 0 }
          hheard (fun y hy => ha y (List.mem_cons_of_mem x hy))
          le_rfl (by simp [UTTERANCE_SILENCE_LIMIT_MS])
      have hfst : (detRun ({ d with
          speechDurationMs := 0
          utteranceSilenceMs := 0 }, 1) rest).1 =
          (detRun ({ d with
            speechDurationMs := 0
            utteranceSilenceMs := 0 }, 0) rest).1 := by
        rw [detRun_fires_add]
      have hsnd : (detRun ({ d with
          speechDurationMs := 0
          utteranceSilenceMs := 0 }, 1) rest).2 =
          1 + (detRun ({ d with
            speechDurationMs := 0
            utteranceSilenceMs := 0 }, 0) rest).2 := by
        rw [detRun_fires_add]
      rw [hcons, hfst, hsnd]
      simp only [DetSt.utteranceSilenceMs, List.map_cons, List.sum_cons,
        UTTERANCE_SILENCE_LIMIT_MS] at ih2 ih3 ih4 ih5 hfire ⊢
      refine ⟨ih1, ih2, ih3, ?_, ?_⟩
      · push_cast
        omega
      · intro hk
        omega
    · have hcons : detRun (d, 0) (x :: rest) =
          detRun ({ d with
              speechDurationMs := 0
              utteranceSilenceMs := d.utteranceSilenceMs + x.dt }, 0) rest := by
        rw [detRun_cons, detStep, if_neg (by simpa using not_lt.mpr hx)]
        simp [hheard, hfire]
      obtain ⟨ih1, ih2, ih3, ih4, ih5⟩ :=
        ih { d with
            speechDurationMs := 0
            utteranceSilenceMs := d.utteranceSilenceMs + x.dt }
          hheard (fun y hy => ha y (List.mem_cons_of_mem x hy))
          (by simpa using add_nonneg h0 hdt)
          (by simpa using not_le.mp hfire)
      rw [hcons]
      simp only [DetSt.utteranceSilenceMs, List.map_cons, List.sum_cons,
        UTTERANCE_SILENCE_LIMIT_MS] at ih2 ih3 ih4 ih5 hfire ⊢
      refine ⟨ih1, ih2, ih3, ?_, ?_⟩
      · omega
      · intro hk
        have := ih5 hk
        omega

/-- C5: for every loudness-sample sequence consisting of an above-threshold
phase accumulating at least the minimum valid-speech duration (400ms),
followed by an at-or-below-threshold phase whose total sample time reaches
the utterance-silence limit (1200ms) without reaching a second limit,
the auto-stop (`stopVoiceRecordingAndSend`, the `UtteranceComplete`
trigger) fires exactly once, and `listeningHasHeardSpeech` is true when it
does (it is set during the speech phase and never cleared by the silence
phase). -/
theorem c5_silence_auto_stop_fires_once (sp sil : List LoudnessSample)
    (hsp : ∀ x ∈ sp, speechThreshold < x.level ∧ 0 ≤ x.dt)
    (hspd : MIN_SPEECH_DURATION_MS ≤ (sp.map (·.dt)).sum)
    (hsil : ∀ x ∈ sil, x.level ≤ speechThreshold ∧ 0 ≤ x.dt)
    (hs1 : UTTERANCE_SILENCE_LIMIT_MS ≤ (sil.map (·.dt)).sum)
    (hs2 : (sil.map (·.dt)).sum < 2 * UTTERANCE_SILENCE_LIMIT_MS) :
    (detRun (freshDet, 0) (sp ++ sil)).2 = 1 ∧
    (detRun (freshDet, 0) (sp ++ sil)).1.listeningHasHeardSpeech = true := by
  have hne : sp ≠ [] := by
    rintro rfl
    simp [MIN_SPEECH_DURATION_MS] at hspd
  have happend : detRun (freshDet, 0) (sp ++ sil) =
      detRun (detRun (freshDet, 0) sp) sil := by
    simp [detRun, List.foldl_append]
  obtain ⟨p1, p2, p3, p4⟩ := detRun_speech_phase sp freshDet 0 hne hsp
  have hheard1 :
      (detRun (freshDet, 0) sp).1.listeningHasHeardSpeech = true := by
    refine p4.mpr (Or.inr ?_)
    simpa [freshDet] using hspd
  have hpair : detRun (freshDet, 0) sp = ((detRun (freshDet, 0) sp).1, 0) := by
    rw [show detRun (freshDet, 0) sp =
      ((detRun (freshDet, 0) sp).1, (detRun (freshDet, 0) sp).2) from rfl, p1]
  obtain ⟨s1, s2, s3, s4, s5⟩ :=
    detRun_silence_phase sil (detRun (freshDet, 0) sp).1 hheard1 hsil
      (by rw [p2]) (by rw [p2]; decide)
  rw [happend, hpair]
  refine ⟨?_, s1⟩
  rw [p2] at s4 s5
  simp only [UTTERANCE_SILENCE_LIMIT_MS] at s3 s4 s5 hs1 hs2
  by_cases hj : (detRun ((detRun (freshDet, 0) sp).1, 0) sil).2 = 0
  · have := s5 hj
    omega
  · omega

/-- Witness for C5: 500ms of loudness 0.5 (two 250ms frames) followed by
1200ms of silence (two 600ms frames) fires the auto-stop exactly once with
the heard-speech flag set. -/
theorem c5_witness :
    (∀ x ∈ [(⟨300, 50, 250⟩ : LoudnessSample), ⟨550, 50, 250⟩],
      speechThreshold < x.level ∧ 0 ≤ x.dt) ∧
    MIN_SPEECH_DURATION_MS ≤
      (([(⟨300, 50, 250⟩ : LoudnessSample), ⟨550, 50, 250⟩]).map (·.dt)).sum ∧
    (detRun (freshDet, 0)
      ([(⟨300, 50, 250⟩ : LoudnessSample), ⟨550, 50, 250⟩] ++
        [⟨1150, 0, 600⟩, ⟨1750, 0, 600⟩])).2 = 1 ∧
    (detRun (freshDet, 0)
      ([(⟨300, 50, 250⟩ : LoudnessSample), ⟨550, 50, 250⟩] ++
        [⟨1150, 0, 600⟩, ⟨1750, 0, 600⟩])).1.listeningHasHeardSpeech = true := by
  refine ⟨by decide, by decide, ?_⟩
  have := c5_silence_auto_stop_fires_once
    [⟨300, 50, 250⟩, ⟨550, 50, 250⟩] [⟨1150, 0, 600⟩, ⟨1750, 0, 600⟩]
    (by decide) (by decide) (by decide) (by decide) (by decide)
  exact this

/-- C7: whenever recording stops (`stopVoiceRecordingAndSend` runs with a
live, recording recorder) while `listeningHasHeardSpeech` is false, nothing
is submitted to the backend (the upload counter does not move), the
captured chunks are discarded, and the state ends in LISTENING with a fresh
recording re-armed (recorder and microphone stream live again) — not in
Idle or Processing.  The cooldown hypothesis always holds when a recording
is open: `startVoiceRecording` only opens one after the cooldown has
passed, `lastSpeakingEndedAt` is not written while it stays open, and the
clock is monotone. -/
theorem c7_no_speech_no_upload_relisten (now : ℤ) (evs : List VEvent)
    (playOk : Bool) (s : ModuleState)
    (hr : s.voiceRecorder = true) (hrec : s.isVoiceRecording = true)
    (hh : s.det.listeningHasHeardSpeech = false)
    (hcd : SPEAKING_COOLDOWN_MS ≤ now - s.lastSpeakingEndedAt) :
    (stopVoiceRecordingAndSend now evs playOk s).uploads = s.uploads ∧
    (stopVoiceRecordingAndSend now evs playOk s).voiceChunks = 0 ∧
    (stopVoiceRecordingAndSend now evs playOk s).voiceState = "listening" ∧
    (stopVoiceRecordingAndSend now evs playOk s).isVoiceRecording = true ∧
    (stopVoiceRecordingAndSend now evs playOk s).voiceStream = true ∧
    (stopVoiceRecordingAndSend now evs playOk s).voiceRecorder = true := by
  rw [stopVoiceRecordingAndSend]
  rw [if_neg (by simp [hr]), if_neg (by simp [hrec]), if_pos (by simp [hh])]
  simp only [stopNoSpeechPath, setVoiceState_listening_eq,
    startVoiceRecording_eq, stopOrbAudioReactive]
  split_ifs <;> simp_all <;> omega

/-- Witness for C7: the state reached by starting a voice recording at
300ms, stopped at 2000ms with no speech heard. -/
theorem c7_witness :
    (runEvents [.userStartVoice 300] initState).voiceRecorder = true ∧
    (runEvents [.userStartVoice 300] initState).isVoiceRecording = true ∧
    (runEvents [.userStartVoice 300] initState).det.listeningHasHeardSpeech = false ∧
    SPEAKING_COOLDOWN_MS ≤ 2000 -
      (runEvents [.userStartVoice 300] initState).lastSpeakingEndedAt ∧
    (stopVoiceRecordingAndSend 2000 [] true
      (runEvents [.userStartVoice 300] initState)).uploads =
      (runEvents [.userStartVoice 300] initState).uploads ∧
    (stopVoiceRecordingAndSend 2000 [] true
      (runEvents [.userStartVoice 300] initState)).voiceState = "listening" :=
  ⟨by decide, by decide, by decide, by decide,
    (c7_no_speech_no_upload_relisten 2000 [] true _
      (by decide) (by decide) (by decide) (by decide)).1,
    (c7_no_speech_no_upload_relisten 2000 [] true _
      (by decide) (by decide) (by decide) (by decide)).2.2.1⟩

/-- C8 (amended): only the SPEAKING→IDLE transition arms the post-speaking
cooldown, and a `startVoiceRecording` call within 250ms of the armed
timestamp returns without opening capture; an exit from SPEAKING to
LISTENING leaves `lastSpeakingEndedAt` untouched, so it does not suppress
the new recording those exit paths immediately start. -/
theorem c8_amended_cooldown_only_on_idle_exit :
    (∀ (s : ModuleState) (now : ℤ), s.voiceState = "speaking" →
      (setVoiceState now "idle" s).lastSpeakingEndedAt = now) ∧
    (∀ (s : ModuleState) (now : ℤ), s.voiceState = "speaking" →
      (setVoiceState now "listening" s).lastSpeakingEndedAt =
        s.lastSpeakingEndedAt) ∧
    (∀ (s : ModuleState) (now : ℤ),
      now - s.lastSpeakingEndedAt < SPEAKING_COOLDOWN_MS →
        startVoiceRecording now s = s) := by
  refine ⟨fun s now h => ?_, fun s now h => ?_, fun s now h => ?_⟩
  · rw [setVoiceState]
    rw [if_neg (by simp [voiceStateValues]), if_neg (by simp [h])]
    simp only [hideVoiceUI, showVoiceUI, updateVoiceStatusLabel,
      stopBargeInDetector, startBargeInDetector]
    split_ifs <;> simp_all
  · rw [setVoiceState_listening_eq]
    rw [if_neg (by simp [h]), if_pos h]
  · rw [startVoiceRecording, if_pos h]

/-- Witness for C8 (amended) at a concrete speaking state and the clock
values 1000 (exit) and 1100 (attempt, inside the window). -/
theorem c8_amended_witness :
    (setVoiceState 1000 "idle"
      { initState with voiceState := "speaking" }).lastSpeakingEndedAt = 1000 ∧
    (setVoiceState 1000 "listening"
      { initState with voiceState := "speaking" }).lastSpeakingEndedAt = 0 ∧
    startVoiceRecording 1100
        (setVoiceState 1000 "idle" { initState with voiceState := "speaking" }) =
      setVoiceState 1000 "idle" { initState with voiceState := "speaking" } :=
  ⟨c8_amended_cooldown_only_on_idle_exit.1 _ 1000 rfl,
   c8_amended_cooldown_only_on_idle_exit.2.1 _ 1000 rfl,
   c8_amended_cooldown_only_on_idle_exit.2.2 _ 1100 (by decide)⟩

/-- C10: `setVoiceState` ignores any argument that is not one of the five
`VOICE_STATE` values and any argument equal to the current state — the
whole module state, including UI overlay, status label, detector session
and barge-in monitor, is left untouched; consequently `getVoiceState()`
(which returns the `voiceState` variable unchanged) only ever produces one
of the five enumeration values in any reachable state. -/
theorem c10_set_voice_state_guarded :
    (∀ (s : ModuleState) (now : ℤ) (next : String),
      next ∉ voiceStateValues ∨ next = s.voiceState →
        setVoiceState now next s = s) ∧
    (∀ s : ModuleState, Reachable s → s.voiceState ∈ voiceStateValues) := by
  constructor
  · intro s now next h
    rw [setVoiceState]
    rcases h with h | h
    · rw [if_pos h]
    · subst h
      split_ifs <;> simp_all
  · intro s h
    exact inv_reachable s h

/-- Witness for C10: a value outside the enumeration (`"bogus"`) and a value
equal to the current state (`"idle"`) both leave the initial state
untouched, and the initial state's voice state is in the enumeration. -/
theorem c10_witness :
    setVoiceState 0 "bogus" initState = initState ∧
    setVoiceState 0 "idle" initState = initState ∧
    initState.voiceState ∈ voiceStateValues :=
  ⟨c10_set_voice_state_guarded.1 initState 0 "bogus" (Or.inl (by decide)),
   c10_set_voice_state_guarded.1 initState 0 "idle" (Or.inr (by decide)),
   c10_set_voice_state_guarded.2 initState Reachable.init⟩

/-- C9: `stopVoiceAssistantCompletely` is idempotent.  From any starting
state the call leaves voice state Idle with no recorder, no recording flag,
no microphone stream, no orb loop or audio context, no playback audio and no
barge-in resources, and a second call (at any later clock reading) is a
no-op producing the same end state; every statement of its body is wrapped
in `try`/`catch` or is an assignment, so the second call also cannot throw,
which the model reflects by being total. -/
theorem c9_full_stop_idempotent (s : ModuleState) (now1 now2 : ℤ) :
    stopVoiceAssistantCompletely now2 (stopVoiceAssistantCompletely now1 s) =
      stopVoiceAssistantCompletely now1 s ∧
    (stopVoiceAssistantCompletely now1 s).voiceState = "idle" ∧
    (stopVoiceAssistantCompletely now1 s).voiceRecorder = false ∧
    (stopVoiceAssistantCompletely now1 s).isVoiceRecording = false ∧
    (stopVoiceAssistantCompletely now1 s).voiceStream = false ∧
    (stopVoiceAssistantCompletely now1 s).analyserRaf = false ∧
    (stopVoiceAssistantCompletely now1 s).audioCtx = false ∧
    (stopVoiceAssistantCompletely now1 s).speakingAudio = false ∧
    (stopVoiceAssistantCompletely now1 s).bargeStream = false ∧
    (stopVoiceAssistantCompletely now1 s).bargeCtx = false ∧
    (stopVoiceAssistantCompletely now1 s).bargeRaf = false := by
  rw [stopVoiceAssistantCompletely_eq now1, stopVoiceAssistantCompletely_eq now2]
  simp

/-- With no `error` event in the stream, the voice accumulator run is the
plain left fold of the per-event callback. -/
theorem voiceAccRun_eq_foldl (l : List VEvent) (a : VoiceAcc)
    (h : ∀ e ∈ l, e.isErrorEv = false) :
    voiceAccRun a l = l.foldl voiceAccStep a := by
  induction l generalizing a with
  | nil => rfl
  | cons e rest ih =>
    cases e with
    | errorEv m =>
      exact absurd (h _ (List.mem_cons_self _ _)) (by simp [VEvent.isErrorEv])
    | sttResult text =>
      rw [List.foldl_cons]
      exact ih _ fun x hx => h x (List.mem_cons_of_mem _ hx)
    | llmToken delta =>
      rw [List.foldl_cons]
      exact ih _ fun x hx => h x (List.mem_cons_of_mem _ hx)
    | llmDone text =>
      rw [List.foldl_cons]
      exact ih _ fun x hx => h x (List.mem_cons_of_mem _ hx)
    | ttsChunk audio =>
      rw [List.foldl_cons]
      exact ih _ fun x hx => h x (List.mem_cons_of_mem _ hx)
    | ttsDone =>
      rw [List.foldl_cons]
      exact ih _ fun x hx => h x (List.mem_cons_of_mem _ hx)
    | doneEv sessionId =>
      rw [List.foldl_cons]
      exact ih _ fun x hx => h x (List.mem_cons_of_mem _ hx)

/-- Events that are neither `llm_token` nor `llm_done` (nor `error`) leave
the accumulated and the rendered assistant text untouched. -/
theorem voiceAccStep_foldl_no_llm (l : List VEvent) (a : VoiceAcc)
    (h : ∀ e ∈ l, VEvent.isLlmEv e = false) :
    (l.foldl voiceAccStep a).fullLLMText = a.fullLLMText ∧
    (l.foldl voiceAccStep a).rendered = a.rendered := by
  induction l generalizing a with
  | nil => exact ⟨rfl, rfl⟩
  | cons e rest ih =>
    rw [List.foldl_cons]
    have hrest := fun x hx => h x (List.mem_cons_of_mem e hx)
    have hstep : (voiceAccStep a e).fullLLMText = a.fullLLMText ∧
        (voiceAccStep a e).rendered = a.rendered := by
      cases e with
      | llmToken delta =>
        exact absurd (h _ (List.mem_cons_self _ _)) (by simp [VEvent.isLlmEv])
      | llmDone text =>
        exact absurd (h _ (List.mem_cons_self _ _)) (by simp [VEvent.isLlmEv])
      | ttsChunk audio => constructor <;> simp [voiceAccStep] <;> split <;> rfl
      | doneEv sessionId => constructor <;> simp [voiceAccStep] <;> split <;> rfl
      | sttResult text => exact ⟨rfl, rfl⟩
      | ttsDone => exact ⟨rfl, rfl⟩
      | errorEv m => exact ⟨rfl, rfl⟩
    obtain ⟨ih1, ih2⟩ := ih (voiceAccStep a e) hrest
    exact ⟨ih1.trans hstep.1, ih2.trans hstep.2⟩

/-- The per-event callback never touches the error flags: a fold of
`voiceAccStep` over any event list preserves `isError` and
`renderedIsError` (the flags are set only by the throwing `error` branch
of `voiceAccRun`). -/
theorem voiceAccStep_foldl_flags (l : List VEvent) (a : VoiceAcc) :
    (l.foldl voiceAccStep a).isError = a.isError ∧
    (l.foldl voiceAccStep a).renderedIsError = a.renderedIsError := by
  induction l generalizing a with
  | nil => exact ⟨rfl, rfl⟩
  | cons e rest ih =>
    rw [List.foldl_cons]
    have hstep : (voiceAccStep a e).isError = a.isError ∧
        (voiceAccStep a e).renderedIsError = a.renderedIsError := by
      cases e with
      | llmToken delta => constructor <;> simp [voiceAccStep] <;> split <;> rfl
      | llmDone text => constructor <;> simp [voiceAccStep] <;> split <;> rfl
      | ttsChunk audio => constructor <;> simp [voiceAccStep] <;> split <;> rfl
      | doneEv sessionId =>
        constructor <;> simp [voiceAccStep] <;> split <;> rfl
      | sttResult text => exact ⟨rfl, rfl⟩
      | ttsDone => exact ⟨rfl, rfl⟩
      | errorEv m => exact ⟨rfl, rfl⟩
    obtain ⟨ih1, ih2⟩ := ih (voiceAccStep a e)
    exact ⟨ih1.trans hstep.1, ih2.trans hstep.2⟩

/-- C4 (amended): in a voice turn whose stream does not fail (no `error`
event) and that carries an `llm_done` event with a nonempty text field,
with no further `llm_token`/`llm_done` after it, the retained and rendered
final assistant text is exactly the `llm_done` text — whatever `llm_token`
deltas arrived before it.  The amendment the counterexample forces: when
`llm_done.text` is empty, the `data.text` truthiness guard keeps the token
concatenation instead. -/
theorem c4_amended_llm_done_wins (sid : Option String)
    (pre post : List VEvent) (t : String) (ht : t ≠ "")
    (hpre : ∀ e ∈ pre, e.isErrorEv = false)
    (hpost : ∀ e ∈ post, e.isErrorEv = false ∧ VEvent.isLlmEv e = false) :
    (voiceAccRun (freshVoiceAcc sid)
      (pre ++ VEvent.llmDone t :: post)).fullLLMText = t ∧
    (voiceAccRun (freshVoiceAcc sid)
      (pre ++ VEvent.llmDone t :: post)).rendered = t := by
  rw [voiceAccRun_eq_foldl]
  · rw [List.foldl_append, List.foldl_cons]
    have hstep :
        voiceAccStep (pre.foldl voiceAccStep (freshVoiceAcc sid))
            (VEvent.llmDone t) =
          { pre.foldl voiceAccStep (freshVoiceAcc sid) with
              fullLLMText := t
              rendered := t } := by
      simp [voiceAccStep, ht]
    rw [hstep]
    obtain ⟨h1, h2⟩ :=
      voiceAccStep_foldl_no_llm post _ (fun e he => (hpost e he).2)
    rw [h1, h2]
    exact ⟨rfl, rfl⟩
  · intro e he
    rcases List.mem_append.mp he with he | he
    · exact hpre e he
    · rcases List.mem_cons.mp he with rfl | he
      · rfl
      · exact (hpost e he).1

/-- Witness for C4 (amended): an out-of-order token pair followed by
`llm_done "final"` and trailing TTS/done events yields exactly `"final"`. -/
theorem c4_amended_witness :
    ("final" : String) ≠ "" ∧
    (voiceAccRun (freshVoiceAcc none)
      ([.sttResult "q", .llmToken "b", .llmToken "a"] ++
        VEvent.llmDone "final" ::
          [.ttsChunk "x", .ttsDone, .doneEv "s1"])).fullLLMText = "final" ∧
    (voiceAccRun (freshVoiceAcc none)
      ([.sttResult "q", .llmToken "b", .llmToken "a"] ++
        VEvent.llmDone "final" ::
          [.ttsChunk "x", .ttsDone, .doneEv "s1"])).rendered = "final" :=
  ⟨by decide,
    (c4_amended_llm_done_wins none _ _ "final" (by decide)
      (by decide) (by decide)).1,
    (c4_amended_llm_done_wins none _ _ "final" (by decide)
      (by decide) (by decide)).2⟩

end ChatbotVoice

namespace ChatbotCore

/-- Folding the token-concatenation function from an arbitrary accumulator
prefixes the accumulator to the concatenation from the empty string. -/
theorem deltasConcat_acc (l : List TEvent) (a : String) :
    l.foldl (fun acc e => match e with | TEvent.token d => acc ++ d | _ => acc) a =
      a ++ deltasConcat l := by
  induction l generalizing a with
  | nil => simp [deltasConcat]
  | cons e rest ih =>
    cases e with
    | token d =>
      simp only [List.foldl_cons]
      rw [ih (a ++ d)]
      have h2 : deltasConcat (TEvent.token d :: rest) = d ++ deltasConcat rest := by
        simp only [deltasConcat, List.foldl_cons]
        exact ih d
      rw [h2, String.append_assoc]
    | metaEv sid =>
      simp only [List.foldl_cons]
      exact ih a
    | errorEv =>
      simp only [List.foldl_cons]
      exact ih a
    | doneEv p =>
      simp only [List.foldl_cons]
      exact ih a
    | otherEv =>
      simp only [List.foldl_cons]
      exact ih a

/-- A leading token contributes its delta at the front of the
concatenation. -/
theorem deltasConcat_cons_token (d : String) (rest : List TEvent) :
    deltasConcat (TEvent.token d :: rest) = d ++ deltasConcat rest := by
  simp only [deltasConcat, List.foldl_cons]
  exact deltasConcat_acc rest d

/-- With no `done` event, the loop consumes the whole stream: the final
payload stays empty, `sawError` records exactly whether an `error` event
arrived, and the accumulator collects every token delta in order. -/
theorem textLoopRun_no_done (evs : List TEvent) (st : TextTurn)
    (h : hasDoneEv evs = false) :
    (textLoopRun st evs).finalPayload = st.finalPayload ∧
    (textLoopRun st evs).sawError = (st.sawError || hasErrorEv evs) ∧
    (textLoopRun st evs).acc = st.acc ++ deltasConcat evs := by
  induction evs generalizing st with
  | nil => simp [textLoopRun, hasErrorEv, deltasConcat]
  | cons e rest ih =>
    cases e with
    | doneEv p => simp [hasDoneEv] at h
    | metaEv sid =>
      have h' : hasDoneEv rest = false := by
        simpa [hasDoneEv] using h
      rw [textLoopRun]
      split_ifs with hd
      · obtain ⟨i1, i2, i3⟩ := ih { st with sessionId := some sid } h'
        simpa [hasErrorEv, deltasConcat, List.foldl_cons, List.any_cons] using
          And.intro i1 (And.intro i2 i3)
      · obtain ⟨i1, i2, i3⟩ := ih st h'
        simpa [hasErrorEv, deltasConcat, List.foldl_cons, List.any_cons] using
          And.intro i1 (And.intro i2 i3)
    | token delta =>
      have h' : hasDoneEv rest = false := by
        simpa [hasDoneEv] using h
      rw [textLoopRun]
      split_ifs with hd
      · obtain ⟨i1, i2, i3⟩ := ih { st with acc := st.acc ++ delta } h'
        refine ⟨i1, by simpa [hasErrorEv, List.any_cons] using i2, ?_⟩
        rw [i3, deltasConcat_cons_token, String.append_assoc]
      · obtain ⟨i1, i2, i3⟩ := ih st h'
        simp only [ne_eq, not_not] at hd
        subst hd
        refine ⟨i1, by simpa [hasErrorEv, List.any_cons] using i2, ?_⟩
        rw [i3, deltasConcat_cons_token]
        simp
    | errorEv =>
      have h' : hasDoneEv rest = false := by
        simpa [hasDoneEv] using h
      obtain ⟨i1, i2, i3⟩ := ih _ h'
      rw [textLoopRun]
      refine ⟨i1, ?_, by
        simpa [deltasConcat, List.foldl_cons] using i3⟩
      rw [i2]
      simp [hasErrorEv]
    | otherEv =>
      have h' : hasDoneEv rest = false := by
        simpa [hasDoneEv] using h
      obtain ⟨i1, i2, i3⟩ := ih _ h'
      rw [textLoopRun]
      simpa [hasErrorEv, deltasConcat, List.foldl_cons, List.any_cons] using
        And.intro i1 (And.intro i2 i3)

/-- C3 (amended): a turn stream that terminates without a `done` event is
NOT treated as an implicit error.  Text path: the turn is marked failed
exactly when an explicit `error` event arrived, and otherwise renders the
concatenation of the token deltas as a success — `done` never having
arrived plays no role.  Voice path: the turn's error flags are set only by
the throwing `error`-event branch, so any voice stream without an `error`
event — in particular one that resolves without a `done` event — leaves
the turn unfailed and proceeds to the success handling. -/
theorem c3_amended_end_without_done (sid0 : Option String)
    (evs : List TEvent) (h : hasDoneEv evs = false)
    (vsid : Option String) (vevs : List ChatbotVoice.VEvent)
    (hv : ∀ e ∈ vevs, e.isErrorEv = false) :
    ((sendTextMessageResult sid0 evs).isError = hasErrorEv evs ∧
      (sendTextMessageResult sid0 evs).answer = deltasConcat evs) ∧
    ((ChatbotVoice.voiceAccRun
        (ChatbotVoice.freshVoiceAcc vsid) vevs).isError = false ∧
      (ChatbotVoice.voiceAccRun
        (ChatbotVoice.freshVoiceAcc vsid) vevs).renderedIsError = false) := by
  constructor
  · obtain ⟨h1, h2, h3⟩ := textLoopRun_no_done evs
      { acc := "", sawError := false, sessionId := sid0, finalPayload := none } h
    simp only [sendTextMessageResult]
    rw [h1, h2, h3]
    simp
  · rw [ChatbotVoice.voiceAccRun_eq_foldl _ _ hv]
    obtain ⟨f1, f2⟩ :=
      ChatbotVoice.voiceAccStep_foldl_flags vevs (ChatbotVoice.freshVoiceAcc vsid)
    rw [f1, f2]
    exact ⟨rfl, rfl⟩

/-- Witness for C3 (amended): the text stream `[token "a", error]` ends
without `done` and is marked failed only because of its error event, with
answer `"a"`; the voice stream `[llm_token "a", tts_chunk "x"]` ends
without `done` or `error` and leaves both error flags false. -/
theorem c3_amended_witness :
    hasDoneEv [TEvent.token "a", TEvent.errorEv] = false ∧
    (∀ e ∈ [ChatbotVoice.VEvent.llmToken "a", ChatbotVoice.VEvent.ttsChunk "x"],
      e.isErrorEv = false) ∧
    ((sendTextMessageResult none [TEvent.token "a", TEvent.errorEv]).isError =
        hasErrorEv [TEvent.token "a", TEvent.errorEv] ∧
      (sendTextMessageResult none [TEvent.token "a", TEvent.errorEv]).answer =
        deltasConcat [TEvent.token "a", TEvent.errorEv]) ∧
    ((ChatbotVoice.voiceAccRun (ChatbotVoice.freshVoiceAcc none)
        [ChatbotVoice.VEvent.llmToken "a",
          ChatbotVoice.VEvent.ttsChunk "x"]).isError = false ∧
      (ChatbotVoice.voiceAccRun (ChatbotVoice.freshVoiceAcc none)
        [ChatbotVoice.VEvent.llmToken "a",
          ChatbotVoice.VEvent.ttsChunk "x"]).renderedIsError = false) :=
  ⟨by decide, by decide,
    (c3_amended_end_without_done none [TEvent.token "a", TEvent.errorEv]
      (by decide) none
      [ChatbotVoice.VEvent.llmToken "a", ChatbotVoice.VEvent.ttsChunk "x"]
      (by decide)).1,
    (c3_amended_end_without_done none [TEvent.token "a", TEvent.errorEv]
      (by decide) none
      [ChatbotVoice.VEvent.llmToken "a", ChatbotVoice.VEvent.ttsChunk "x"]
      (by decide)).2⟩

end ChatbotCore
